import Mathlib

/-
Verification of scripts/extract-baseline.py (baseline extraction-and-merge
utility) against its specification.

The script is embedded shallowly:

* JSON values are a mutual inductive `Json` / `JsonList` / `JsonFields`;
  objects keep their fields in insertion order with the Python dict update
  semantics (`set` replaces an existing key in place, else appends).
* The filesystem is the state of the two paths the script touches: the
  `--spreadsheet` path (absent, present-but-unloadable, or loadable with a
  workbook value) and the `--output` path (absent, present but not valid
  JSON — the unguarded `json.load` then raises an uncaught JSONDecodeError —
  or present with a parsed JSON document).
* `print(x)` appends the payload `x` to `stdout` (one list element per call,
  embedded newlines kept); the script never writes to `sys.stderr`, so
  `stderr` collects nothing.  `sys.exit(n)` is `Outcome.exit n`; an uncaught
  Python exception is `Outcome.exception` (CPython terminates such a process
  with status 1, which `processExitCode` accounts for, and prints a
  multi-line traceback rather than a one-line diagnostic).
* `json.dump(..., indent=2)` / `json.dumps(..., indent=2)` are `dumpJson`
  (ensure_ascii escaping included); the written file is modelled by its
  parsed `Json` value, which determines the serialized bytes since the
  serializer is deterministic.
* The `import openpyxl` guard at the top of the script (exit 1 when the
  library is missing) concerns the Python installation, not an input of the
  program, and is outside the model.
-/

mutual

inductive Json where
  | null : Json
  | bool : Bool → Json
  | num : Int → Json
  | str : String → Json
  | arr : JsonList → Json
  | obj : JsonFields → Json

inductive JsonList where
  | nil : JsonList
  | cons : Json → JsonList → JsonList

inductive JsonFields where
  | nil : JsonFields
  | cons : String → Json → JsonFields → JsonFields

end

/-- Build a `JsonList` from a Lean list literal. -/
def JsonList.ofList : List Json → JsonList
  | [] => .nil
  | x :: xs => .cons x (ofList xs)

/-- Build ordered object fields from a Lean list literal. -/
def JsonFields.ofList : List (String × Json) → JsonFields
  | [] => .nil
  | (k, v) :: xs => .cons k v (ofList xs)

/-- Python dict read `d[key]`: first (unique) matching key. -/
def JsonFields.lookup : JsonFields → String → Option Json
  | .nil, _ => none
  | .cons k v tl, key => if k = key then some v else tl.lookup key

/-- Python dict write `d[key] = val`: replace in place, else append. -/
def JsonFields.set : JsonFields → String → Json → JsonFields
  | .nil, key, val => .cons key val .nil
  | .cons k v tl, key, val =>
      if k = key then .cons key val tl else .cons k v (tl.set key val)

/-- Field access on a JSON object, `none` when not an object or key absent. -/
def Json.getField : Json → String → Option Json
  | .obj fs, key => fs.lookup key
  | _, _ => none

/-- A loaded workbook: sheet names plus per-sheet, per-cell values (the
current extractor reads none of them). -/
structure Workbook where
  sheetnames : List String
  cellValue : String → String → Json

/-- Parsed CLI arguments. -/
structure Args where
  scenario : String
  output : String
  spreadsheet : String

/-- The argparse defaults of the script. -/
def defaultArgs : Args :=
  { scenario := "gs-straight-through"
    output := "app/tests/scenarios/fixtures/baseline.json"
    spreadsheet := "Retire-original.xlsx" }

/-- State of the `--spreadsheet` path: missing, present but
`openpyxl.load_workbook` raises (with the exception text), or loadable. -/
inductive SpreadsheetFile where
  | absent : SpreadsheetFile
  | corrupt : String → SpreadsheetFile
  | loadable : Workbook → SpreadsheetFile

/-- State of the `--output` path: missing, present but not parseable as
JSON (with the raw text), or present with the parsed document. -/
inductive OutputFile where
  | absent : OutputFile
  | invalid : String → OutputFile
  | valid : Json → OutputFile

/-- State of the world the script can observe: the spreadsheet path and the
output path. -/
structure Env where
  spreadsheet : SpreadsheetFile
  outputFile : OutputFile

/-- How a run terminates: `sys.exit n`, or an uncaught exception. -/
inductive Outcome where
  | exit : Nat → Outcome
  | exception : String → Outcome
  deriving DecidableEq

/-- Process exit status as observed by the shell: `sys.exit n` yields `n`;
CPython terminates a process with an uncaught exception with status 1. -/
def processExitCode : Outcome → Nat
  | .exit c => c
  | .exception _ => 1

/-- Everything observable about one invocation. -/
structure RunResult where
  outcome : Outcome
  stdout : List String
  stderr : List String
  outputFile : OutputFile

/-- The stub record returned by `extract_gs_straight_through` (lines 36-77
of the script), literally. -/
def extract_gs_straight_through (_wb : Workbook) : Json :=
  .obj (.ofList [
    ("status", .str "pending"),
    ("description",
      .str "Full GS career, standard FERS retirement at age 57 with 30 years service"),
    ("expectedValues", .obj (.ofList [
      ("careerProfile", .obj (.ofList [
        ("hireDate", .null),
        ("retirementDate", .null),
        ("birthDate", .null)])),
      ("annuityCalculation", .obj (.ofList [
        ("high3Salary", .null),
        ("creditableServiceYears", .null),
        ("multiplier", .null),
        ("grossAnnuity", .null),
        ("reductionFactor", .null),
        ("netAnnuity", .null)])),
      ("tspProjection", .obj (.ofList [
        ("currentBalance", .null),
        ("projectedBalanceAtRetirement", .null),
        ("monthlyContribution", .null),
        ("assumedGrowthRate", .null)])),
      ("fersSupplement", .obj (.ofList [
        ("eligible", .null),
        ("monthlyAmount", .null),
        ("annualAmount", .null)])),
      ("projectionYears", .obj (.ofList [
        ("year1", .obj (.ofList [
          ("annuity", .null), ("tspWithdrawal", .null),
          ("expenses", .null), ("surplus", .null)])),
        ("year10", .obj (.ofList [
          ("annuity", .null), ("tspWithdrawal", .null),
          ("expenses", .null), ("surplus", .null)])),
        ("year20", .obj (.ofList [
          ("annuity", .null), ("tspWithdrawal", .null),
          ("expenses", .null), ("surplus", .null)])),
        ("year30", .obj (.ofList [
          ("annuity", .null), ("tspWithdrawal", .null),
          ("expenses", .null), ("surplus", .null)]))]))])),
    ("notes", .arr (.ofList [
      .str "TODO: Identify which sheet contains the GS scenario data",
      .str "TODO: Map cell references for each value above",
      .str "TODO: Extract values and populate expectedValues",
      .str "Tolerances: currency ±$1.00, percentages ±0.001%"]))])

/-- The default skeleton synthesized when the output file is absent
(lines 120-132 of the script). -/
def defaultBaseline : Json :=
  .obj (.ofList [
    ("schemaVersion", .num 1),
    ("extractionNotes", .obj (.ofList [
      ("method", .str "Python script (see scripts/extract-baseline.py)"),
      ("tolerances", .obj (.ofList [
        ("currency_annual", .str "±$1.00"),
        ("currency_monthly", .str "±$0.10"),
        ("percentages", .str "±0.001%"),
        ("dates", .str "exact")]))])),
    ("scenarios", .obj .nil)])

/-- Lines 116-118: load the existing output file if present, else the
skeleton.  `none` models the uncaught JSONDecodeError the unguarded
`json.load` raises on a file that exists but is not valid JSON. -/
def loadBaseline : OutputFile → Option Json
  | .absent => some defaultBaseline
  | .invalid _ => none
  | .valid j => some j

/-- Line 135, `baseline["scenarios"][args.scenario] = extracted`, with
Python failure semantics: `none` models the uncaught KeyError (no
"scenarios" key), or TypeError (the document or its "scenarios" value is
not a dict). -/
def mergeScenario (baseline : Json) (name : String) (record : Json) : Option Json :=
  match baseline with
  | .obj fields =>
      match fields.lookup "scenarios" with
      | some (.obj scs) =>
          some (.obj (fields.set "scenarios" (.obj (scs.set name record))))
      | some _ => none
      | none => none
  | _ => none

/-- The "scenarios" mapping of a document, when the document is an object
whose "scenarios" value is an object. -/
def scenariosOf : Json → Option JsonFields
  | .obj fs =>
      match fs.lookup "scenarios" with
      | some (.obj scs) => some scs
      | _ => none
  | _ => none

/-- Scenario record stored under `scenarios[name]` in a document. -/
def getScenario (j : Json) (name : String) : Option Json :=
  match scenariosOf j with
  | some scs => scs.lookup name
  | none => none

/-- The "scenarios" mapping the merge step will operate on: the output file
(or the synthesized skeleton) loads and is an object with a "scenarios"
object. -/
def scenariosOfFile (o : OutputFile) : Option JsonFields :=
  match loadBaseline o with
  | some b => scenariosOf b
  | none => none

/-- Lowercase hex digit, as used by json.dump's \u escapes. -/
def hexDigit (n : Nat) : Char :=
  if n < 10 then Char.ofNat (48 + n) else Char.ofNat (87 + n)

/-- Four lowercase hex digits. -/
def hex4 (n : Nat) : String :=
  String.mk [hexDigit (n / 4096 % 16), hexDigit (n / 256 % 16),
             hexDigit (n / 16 % 16), hexDigit (n % 16)]

/-- One character of a JSON string, escaped the way json.dump does with its
default ensure_ascii=True (controls and non-ASCII escaped, astral
characters as surrogate pairs). -/
def jsonEscapeChar (c : Char) : String :=
  if c = Char.ofNat 34 then "\\\""
  else if c = Char.ofNat 92 then "\\\\"
  else if c = Char.ofNat 8 then "\\b"
  else if c = Char.ofNat 9 then "\\t"
  else if c = Char.ofNat 10 then "\\n"
  else if c = Char.ofNat 12 then "\\f"
  else if c = Char.ofNat 13 then "\\r"
  else if c.toNat < 32 ∨ 127 < c.toNat then
    if c.toNat < 65536 then "\\u" ++ hex4 c.toNat
    else "\\u" ++ hex4 (55296 + (c.toNat - 65536) / 1024)
      ++ "\\u" ++ hex4 (56320 + (c.toNat - 65536) % 1024)
  else String.singleton c

/-- A JSON string literal as json.dump writes it. -/
def jsonQuote (s : String) : String :=
  "\"" ++ String.join (s.toList.map jsonEscapeChar) ++ "\""

/-- `n` spaces of indentation. -/
def spaces (n : Nat) : String :=
  String.mk (List.replicate n (Char.ofNat 32))

mutual

/-- `json.dumps(v, indent=2)` at a given current indentation. -/
def dumpJson : Nat → Json → String
  | _, .null => "null"
  | _, .bool true => "true"
  | _, .bool false => "false"
  | _, .num n => toString n
  | _, .str s => jsonQuote s
  | ind, .arr xs =>
      match xs with
      | .nil => "[]"
      | .cons _ _ => "[\n" ++ dumpList (ind + 2) xs ++ "\n" ++ spaces ind ++ "]"
  | ind, .obj fs =>
      match fs with
      | .nil => "\x7b\x7d"
      | .cons _ _ _ =>
          "\x7b\n" ++ dumpFields (ind + 2) fs ++ "\n" ++ spaces ind ++ "\x7d"

/-- Array elements, one per line, comma-separated. -/
def dumpList : Nat → JsonList → String
  | _, .nil => ""
  | ind, .cons x tl =>
      spaces ind ++ dumpJson ind x
        ++ (match tl with | .nil => "" | .cons _ _ => ",\n")
        ++ dumpList ind tl

/-- Object entries, one per line, comma-separated. -/
def dumpFields : Nat → JsonFields → String
  | _, .nil => ""
  | ind, .cons k v tl =>
      spaces ind ++ jsonQuote k ++ ": " ++ dumpJson ind v
        ++ (match tl with | .nil => "" | .cons _ _ _ => ",\n")
        ++ dumpFields ind tl

end

/-- An ASCII single quote, as in the unknown-scenario diagnostic. -/
def squote : String := String.singleton (Char.ofNat 39)

/-- The `main` function of the script, lines 81-142 (named scriptMain since Lean reserves `main` for executables).  Diagnostics, like all
other output of the script, go through `print`, i.e. to stdout. -/
def scriptMain (args : Args) (env : Env) : RunResult :=
  match env.spreadsheet with
  | .absent =>
      { outcome := .exit 1
        stdout := ["Error: " ++ args.spreadsheet ++ " not found"]
        stderr := []
        outputFile := env.outputFile }
  | .corrupt e =>
      { outcome := .exit 1
        stdout := ["Loading " ++ args.spreadsheet ++ "...",
                   "Error loading workbook: " ++ e]
        stderr := []
        outputFile := env.outputFile }
  | .loadable wb =>
      let pre := ["Loading " ++ args.spreadsheet ++ "...", "Available sheets:"]
        ++ wb.sheetnames.map (fun s => "  - " ++ s)
      if args.scenario = "gs-straight-through" then
        let extracted := extract_gs_straight_through wb
        match loadBaseline env.outputFile with
        | none =>
            { outcome := .exception "json.load failed on the existing output file"
              stdout := pre
              stderr := []
              outputFile := env.outputFile }
        | some baseline =>
            match mergeScenario baseline args.scenario extracted with
            | some merged =>
                { outcome := .exit 0
                  stdout := pre ++ ["\nUpdated " ++ args.output, dumpJson 0 extracted]
                  stderr := []
                  outputFile := .valid merged }
            | none =>
                { outcome := .exception "scenario insertion failed on the loaded baseline"
                  stdout := pre
                  stderr := []
                  outputFile := env.outputFile }
      else
        { outcome := .exit 1
          stdout := pre ++ ["Error: Unknown scenario " ++ squote ++ args.scenario ++ squote]
          stderr := []
          outputFile := env.outputFile }

mutual

/-- Every leaf of a nested object structure is JSON null. -/
def allLeavesNull : Json → Bool
  | .null => true
  | .obj fs => allLeavesNullFields fs
  | _ => false

/-- Every leaf of every field value is JSON null. -/
def allLeavesNullFields : JsonFields → Bool
  | .nil => true
  | .cons _ v tl => allLeavesNull v && allLeavesNullFields tl

end

/-- The JSON array contains the given string. -/
def JsonList.hasStr : JsonList → String → Bool
  | .nil, _ => false
  | .cons (.str s) tl, t => s == t || tl.hasStr t
  | .cons _ tl, t => tl.hasStr t

/-- The string contains no newline, i.e. `print` emits it as one line. -/
def noNewline (s : String) : Bool :=
  s.toList.all (fun c => c ≠ Char.ofNat 10)

/-- A workbook as the spec's concrete scenario describes the real one. -/
def cWb : Workbook :=
  { sheetnames := ["Basic Calculator", "Examples"]
    cellValue := fun _ _ => .null }

/-- Environment with no spreadsheet file. -/
def envAbsent : Env := { spreadsheet := .absent, outputFile := .absent }

/-- Environment with a loadable spreadsheet and no output file yet. -/
def envLoad : Env := { spreadsheet := .loadable cWb, outputFile := .absent }

/-- Pre-existing sibling scenarios in an output file. -/
def preScenarios : JsonFields := .cons "leo" (.str "old-record") .nil

/-- A pre-existing well-formed output document with one sibling scenario. -/
def preBaseline : Json :=
  .obj (.cons "schemaVersion" (.num 1)
    (.cons "scenarios" (.obj preScenarios) .nil))

/-- Environment with a loadable spreadsheet and the pre-existing document. -/
def envPre : Env := { spreadsheet := .loadable cWb, outputFile := .valid preBaseline }

/-- A valid JSON output document that has no "scenarios" key. -/
def badOut : Json := .obj (.cons "schemaVersion" (.num 1) .nil)

/-- Environment whose existing output file lacks the "scenarios" mapping. -/
def badEnv : Env := { spreadsheet := .loadable cWb, outputFile := .valid badOut }

/-- Environment whose existing output file is not parseable as JSON. -/
def invalidEnv : Env :=
  { spreadsheet := .loadable cWb, outputFile := .invalid "not json \x7b" }

/-- CLI arguments selecting a scenario no extractor implements. -/
def argsLeo : Args := { defaultArgs with scenario := "leo" }

theorem JsonFields.lookup_set_self : (l : JsonFields) → (k : String) → (v : Json) →
    (l.set k v).lookup k = some v
  | .nil, k, v => by simp [set, lookup]
  | .cons a b tl, k, v => by
      by_cases h : a = k
      · simp [set, lookup, h]
      · simp [set, lookup, h, lookup_set_self tl k v]

theorem JsonFields.lookup_set_ne : (l : JsonFields) → (k q : String) → (v : Json) →
    q ≠ k → (l.set k v).lookup q = l.lookup q
  | .nil, k, q, v, h => by simp [set, lookup, Ne.symm h]
  | .cons a b tl, k, q, v, h => by
      by_cases hak : a = k
      · subst hak
        simp [set, lookup, Ne.symm h]
      · by_cases haq : a = q
        · simp [set, lookup, hak, haq, h]
        · simp [set, lookup, hak, haq, lookup_set_ne tl k q v h]

theorem JsonFields.set_set_self : (l : JsonFields) → (k : String) → (v : Json) →
    (l.set k v).set k v = l.set k v
  | .nil, k, v => by simp [set]
  | .cons a b tl, k, v => by
      by_cases h : a = k
      · simp [set, h]
      · simp [set, h, set_set_self tl k v]

/-- A document whose "scenarios" mapping exists is an object carrying it. -/
theorem scenariosOf_obj (b : Json) (scs : JsonFields) (h : scenariosOf b = some scs) :
    ∃ fs, b = .obj fs ∧ fs.lookup "scenarios" = some (.obj scs) := by
  cases b <;> simp [scenariosOf] at h
  case obj fs =>
    cases hl : fs.lookup "scenarios" with
    | none => rw [hl] at h; simp at h
    | some x =>
        rw [hl] at h
        cases x <;> simp at h
        case obj scs2 => exact ⟨fs, rfl, by rw [hl, h]⟩

/-- Successful scenario insertion, explicitly. -/
theorem mergeScenario_eq (fs scs : JsonFields) (name : String) (r : Json)
    (hl : fs.lookup "scenarios" = some (.obj scs)) :
    mergeScenario (.obj fs) name r
      = some (.obj (fs.set "scenarios" (.obj (scs.set name r)))) := by
  simp [mergeScenario, hl]

/-- Scenario insertion raises exactly when the document has no
"scenarios" mapping. -/
theorem mergeScenario_none_of (b : Json) (name : String) (r : Json)
    (h : scenariosOf b = none) : mergeScenario b name r = none := by
  cases b <;> simp [mergeScenario]
  case obj fs =>
    cases hl : fs.lookup "scenarios" with
    | none => simp [hl]
    | some x =>
        cases x <;> simp [hl]
        case obj scs => simp [scenariosOf, hl] at h

/-- Inserting and re-reading the same scenario name. -/
theorem getScenario_mergeScenario (b m r : Json) (name : String)
    (h : mergeScenario b name r = some m) : getScenario m name = some r := by
  cases b <;> simp [mergeScenario] at h
  case obj fs =>
    cases hl : fs.lookup "scenarios" with
    | none => rw [hl] at h; simp at h
    | some x =>
        rw [hl] at h
        cases x <;> simp at h
        case obj scs =>
          rw [← h]
          simp [getScenario, scenariosOf, JsonFields.lookup_set_self]

/-- Re-inserting the record a merged document already carries changes
nothing. -/
theorem mergeScenario_idem (b m : Json) (name : String) (r : Json)
    (h : mergeScenario b name r = some m) :
    mergeScenario m name r = some m := by
  cases b <;> simp [mergeScenario] at h
  case obj fs =>
    cases hl : fs.lookup "scenarios" with
    | none => rw [hl] at h; simp at h
    | some x =>
        rw [hl] at h
        cases x <;> simp at h
        case obj scs =>
          rw [← h]
          rw [mergeScenario_eq _ (scs.set name r) name r
            (JsonFields.lookup_set_self fs "scenarios" (.obj (scs.set name r)))]
          rw [JsonFields.set_set_self, JsonFields.set_set_self]

/-- Loadable spreadsheet, known scenario, output file loads, merge
succeeds: exit 0 and the merged document is written. -/
theorem scriptMain_merge_some (args : Args) (outf : OutputFile) (wb : Workbook) (b m : Json)
    (hname : args.scenario = "gs-straight-through")
    (hb : loadBaseline outf = some b)
    (hm : mergeScenario b args.scenario (extract_gs_straight_through wb) = some m) :
    (scriptMain args ⟨.loadable wb, outf⟩).outcome = .exit 0 ∧
    (scriptMain args ⟨.loadable wb, outf⟩).outputFile = .valid m := by
  rw [hname] at hm
  simp [scriptMain, hname, hb, hm]

/-- Loadable spreadsheet, known scenario, output file loads, merge raises:
uncaught exception and the output file is untouched. -/
theorem scriptMain_merge_none (args : Args) (outf : OutputFile) (wb : Workbook) (b : Json)
    (hname : args.scenario = "gs-straight-through")
    (hb : loadBaseline outf = some b)
    (hm : mergeScenario b args.scenario (extract_gs_straight_through wb) = none) :
    (scriptMain args ⟨.loadable wb, outf⟩).outcome
      = .exception "scenario insertion failed on the loaded baseline" ∧
    (scriptMain args ⟨.loadable wb, outf⟩).outputFile = outf := by
  rw [hname] at hm
  simp [scriptMain, hname, hb, hm]

/-- Loadable spreadsheet, known scenario, but the existing output file does
not parse as JSON: json.load raises, nothing is written. -/
theorem scriptMain_load_fail (args : Args) (outf : OutputFile) (wb : Workbook)
    (hname : args.scenario = "gs-straight-through")
    (hb : loadBaseline outf = none) :
    (scriptMain args ⟨.loadable wb, outf⟩).outcome
      = .exception "json.load failed on the existing output file" ∧
    (scriptMain args ⟨.loadable wb, outf⟩).outputFile = outf := by
  simp [scriptMain, hname, hb]

/-- C1: with the valid scenario name and a successful workbook load, the run
writes a document whose scenarios[name] is exactly the extractor's record,
while every other scenario entry of the pre-existing scenarios mapping is
looked up unchanged (nothing is removed, nothing else rewritten). -/
theorem c1_merge_updates_only_named_scenario (args : Args) (env : Env)
    (wb : Workbook) (scs : JsonFields)
    (hload : env.spreadsheet = .loadable wb)
    (hname : args.scenario = "gs-straight-through")
    (hscs : scenariosOfFile env.outputFile = some scs) :
    ∃ out, (scriptMain args env).outputFile = .valid out ∧
      getScenario out args.scenario = some (extract_gs_straight_through wb) ∧
      ∀ k, k ≠ args.scenario → getScenario out k = scs.lookup k := by
  obtain ⟨sp, outf⟩ := env
  dsimp only at hload hscs
  subst hload
  obtain ⟨b, hload2, hb2⟩ : ∃ b, loadBaseline outf = some b ∧ scenariosOf b = some scs := by
    unfold scenariosOfFile at hscs
    cases hlb : loadBaseline outf with
    | none => rw [hlb] at hscs; simp at hscs
    | some b => rw [hlb] at hscs; exact ⟨b, rfl, hscs⟩
  obtain ⟨fs, hb, hl⟩ := scenariosOf_obj _ _ hb2
  have hm := mergeScenario_eq fs scs args.scenario (extract_gs_straight_through wb) hl
  rw [← hb] at hm
  obtain ⟨-, hout⟩ := scriptMain_merge_some args outf wb b _ hname hload2 hm
  refine ⟨_, hout, ?_, ?_⟩
  · simp [getScenario, scenariosOf, JsonFields.lookup_set_self]
  · intro k hk
    simp [getScenario, scenariosOf, JsonFields.lookup_set_self,
      JsonFields.lookup_set_ne _ _ _ _ hk]

/-- C2: a missing spreadsheet path exits with status 1 and neither creates
nor modifies the output file. -/
theorem c2_missing_spreadsheet_no_write (args : Args) (env : Env)
    (h : env.spreadsheet = .absent) :
    (scriptMain args env).outcome = .exit 1 ∧
    (scriptMain args env).outputFile = env.outputFile := by
  obtain ⟨sp, outf⟩ := env
  dsimp only at h
  subst h
  simp [scriptMain]

/-- C3: an unknown scenario name exits with status 1 and leaves the output
file untouched even though the spreadsheet loaded. -/
theorem c3_unknown_scenario_no_write (args : Args) (env : Env) (wb : Workbook)
    (hload : env.spreadsheet = .loadable wb)
    (hne : args.scenario ≠ "gs-straight-through") :
    (scriptMain args env).outcome = .exit 1 ∧
    (scriptMain args env).outputFile = env.outputFile := by
  obtain ⟨sp, outf⟩ := env
  dsimp only at hload
  subst hload
  simp [scriptMain, hne]

/-- C4: a second run with identical inputs leaves the output file exactly as
the first run left it. -/
theorem c4_idempotent_rerun (args : Args) (env : Env) :
    (scriptMain args { env with outputFile := (scriptMain args env).outputFile }).outputFile
      = (scriptMain args env).outputFile := by
  obtain ⟨sp, outf⟩ := env
  cases sp with
  | absent => simp [scriptMain]
  | corrupt e => simp [scriptMain]
  | loadable wb =>
      by_cases hname : args.scenario = "gs-straight-through"
      · cases hlb : loadBaseline outf with
        | none =>
            obtain ⟨-, h1⟩ := scriptMain_load_fail args outf wb hname hlb
            rw [h1]
            exact h1
        | some b =>
            cases hm : mergeScenario b args.scenario
                (extract_gs_straight_through wb) with
            | none =>
                obtain ⟨-, h1⟩ := scriptMain_merge_none args outf wb b hname hlb hm
                rw [h1]
                exact h1
            | some m =>
                obtain ⟨-, h1⟩ := scriptMain_merge_some args outf wb b m hname hlb hm
                rw [h1]
                exact (scriptMain_merge_some args (.valid m) wb m m hname rfl
                  (mergeScenario_idem _ _ _ _ hm)).2
      · simp [scriptMain, hname]

/-- C5: a successful run against a non-existent output path creates a
document with schemaVersion 1 and exactly the fixed tolerance metadata. -/
theorem c5_default_skeleton (args : Args) (env : Env) (wb : Workbook)
    (hload : env.spreadsheet = .loadable wb)
    (hname : args.scenario = "gs-straight-through")
    (hout : env.outputFile = .absent) :
    ∃ out, (scriptMain args env).outputFile = .valid out ∧
      out.getField "schemaVersion" = some (.num 1) ∧
      (out.getField "extractionNotes").bind (fun n => n.getField "tolerances")
        = some (.obj (.ofList [
            ("currency_annual", .str "±$1.00"),
            ("currency_monthly", .str "±$0.10"),
            ("percentages", .str "±0.001%"),
            ("dates", .str "exact")])) := by
  obtain ⟨sp, outf⟩ := env
  dsimp only at hload hout
  subst hload
  subst hout
  refine ⟨_, (scriptMain_merge_some args .absent wb defaultBaseline _ hname rfl rfl).2, ?_, ?_⟩
  · rfl
  · rfl

/-- C6: a successful default-argument run on a loadable spreadsheet writes
the stub record: status "pending", all expectedValues leaves null, and the
four literal note strings present. -/
theorem c6_stub_record_shape (env : Env) (wb : Workbook)
    (hload : env.spreadsheet = .loadable wb)
    (hsucc : (scriptMain defaultArgs env).outcome = .exit 0) :
    ∃ out r, (scriptMain defaultArgs env).outputFile = .valid out ∧
      getScenario out "gs-straight-through" = some r ∧
      r.getField "status" = some (.str "pending") ∧
      (∃ ev, r.getField "expectedValues" = some ev ∧ allLeavesNull ev = true) ∧
      (∃ ns, r.getField "notes" = some (.arr ns) ∧
        ns.hasStr "TODO: Identify which sheet contains the GS scenario data" = true ∧
        ns.hasStr "TODO: Map cell references for each value above" = true ∧
        ns.hasStr "TODO: Extract values and populate expectedValues" = true ∧
        ns.hasStr "Tolerances: currency ±$1.00, percentages ±0.001%" = true) := by
  obtain ⟨sp, outf⟩ := env
  dsimp only at hload
  subst hload
  cases hlb : loadBaseline outf with
  | none =>
      obtain ⟨h1, -⟩ := scriptMain_load_fail defaultArgs outf wb rfl hlb
      rw [h1] at hsucc
      simp at hsucc
  | some b =>
      cases hm : mergeScenario b defaultArgs.scenario
          (extract_gs_straight_through wb) with
      | none =>
          obtain ⟨h1, -⟩ := scriptMain_merge_none defaultArgs outf wb b rfl hlb hm
          rw [h1] at hsucc
          simp at hsucc
      | some m =>
          obtain ⟨-, h2⟩ := scriptMain_merge_some defaultArgs outf wb b m rfl hlb hm
          refine ⟨m, extract_gs_straight_through wb, h2,
            getScenario_mergeScenario _ _ _ _ hm, rfl,
            ⟨_, rfl, rfl⟩, ⟨_, rfl, rfl, rfl, rfl, rfl⟩⟩

/-- A concatenation has no newline iff neither part does. -/
theorem noNewline_append (a b : String) :
    noNewline (a ++ b) = (noNewline a && noNewline b) := by
  simp [noNewline, String.toList, String.data_append, List.all_append]

/-- C7 counterexample: on a missing spreadsheet the run exits 1 with the
diagnostic as the sole stdout line and nothing at all on stderr, so the
diagnostic is not written to the error stream. -/
theorem c7_counterexample_diag_not_on_stderr :
    (scriptMain defaultArgs envAbsent).outcome = .exit 1 ∧
    (scriptMain defaultArgs envAbsent).stdout
      = ["Error: Retire-original.xlsx not found"] ∧
    (scriptMain defaultArgs envAbsent).stderr = [] :=
  ⟨rfl, rfl, rfl⟩

/-- C7 (amended): for each of the three failure classes the one-line
diagnostic is written to standard output (the script reports via print, not
via the error stream), nothing is written to stderr, and the process exits
with status 1. -/
theorem c7_diagnostics_on_stdout (args : Args) (env : Env)
    (hnl1 : noNewline args.spreadsheet = true)
    (hnl2 : noNewline args.scenario = true)
    (hfail : env.spreadsheet = .absent
      ∨ (∃ e, env.spreadsheet = .corrupt e ∧ noNewline e = true)
      ∨ (∃ wb, env.spreadsheet = .loadable wb ∧ args.scenario ≠ "gs-straight-through")) :
    (scriptMain args env).outcome = .exit 1 ∧
    (scriptMain args env).stderr = [] ∧
    ∃ msg t, msg ∈ (scriptMain args env).stdout ∧ noNewline msg = true ∧
      msg = "Error" ++ t := by
  obtain ⟨sp, outf⟩ := env
  obtain h | ⟨e, h, hnl3⟩ | ⟨wb, h, hne⟩ := hfail
  · dsimp only at h
    subst h
    refine ⟨rfl, rfl, "Error: " ++ args.spreadsheet ++ " not found",
      ": " ++ (args.spreadsheet ++ " not found"), ?_, ?_, ?_⟩
    · simp [scriptMain]
    · rw [noNewline_append, noNewline_append, hnl1]
      decide
    · rw [← String.append_assoc, ← String.append_assoc]
      rfl
  · dsimp only at h
    subst h
    refine ⟨rfl, rfl, "Error loading workbook: " ++ e,
      " loading workbook: " ++ e, ?_, ?_, ?_⟩
    · simp [scriptMain]
    · rw [noNewline_append, hnl3]
      decide
    · rw [← String.append_assoc]
      rfl
  · dsimp only at h
    subst h
    refine ⟨?_, ?_, "Error: Unknown scenario " ++ squote ++ args.scenario ++ squote,
      ": Unknown scenario " ++ squote ++ args.scenario ++ squote, ?_, ?_, ?_⟩
    · simp [scriptMain, hne]
    · simp [scriptMain, hne]
    · simp [scriptMain, hne]
    · rw [noNewline_append, noNewline_append, noNewline_append, hnl2]
      decide
    · rw [← String.append_assoc, ← String.append_assoc, ← String.append_assoc]
      rfl

/-- C8 counterexample: with a loadable spreadsheet and the recognized
default scenario but an existing output document lacking the "scenarios"
mapping, the process still finishes with exit status 1 (via the uncaught
merge exception), so status 1 does not occur exactly in the three listed
situations. -/
theorem c8_counterexample_exception_also_exits_1 :
    processExitCode (scriptMain defaultArgs badEnv).outcome = 1 ∧
    badEnv.spreadsheet = .loadable cWb ∧
    defaultArgs.scenario = "gs-straight-through" :=
  ⟨rfl, rfl, rfl⟩

/-- C8 (amended): the CLI defaults are as stated; the process exit status
is 0 exactly on a fully successful run, and 1 exactly when the spreadsheet
is missing, the spreadsheet fails to load, the scenario name is
unrecognized, or an uncaught exception ends the run — either json.load on
an existing output file that is not valid JSON, or the scenario insertion
on a loaded document without a "scenarios" mapping. -/
theorem c8_defaults_and_exit_codes (args : Args) (env : Env) :
    (defaultArgs.scenario = "gs-straight-through" ∧
     defaultArgs.output = "app/tests/scenarios/fixtures/baseline.json" ∧
     defaultArgs.spreadsheet = "Retire-original.xlsx") ∧
    (processExitCode (scriptMain args env).outcome = 0 ↔
      (∃ wb b m, env.spreadsheet = .loadable wb ∧ args.scenario = "gs-straight-through" ∧
        loadBaseline env.outputFile = some b ∧
        mergeScenario b args.scenario (extract_gs_straight_through wb) = some m)) ∧
    (processExitCode (scriptMain args env).outcome = 1 ↔
      (env.spreadsheet = .absent
        ∨ (∃ e, env.spreadsheet = .corrupt e)
        ∨ (∃ wb, env.spreadsheet = .loadable wb ∧ args.scenario ≠ "gs-straight-through")
        ∨ (∃ wb t, env.spreadsheet = .loadable wb ∧ args.scenario = "gs-straight-through" ∧
            env.outputFile = .invalid t)
        ∨ (∃ wb b, env.spreadsheet = .loadable wb ∧ args.scenario = "gs-straight-through" ∧
            loadBaseline env.outputFile = some b ∧
            mergeScenario b args.scenario (extract_gs_straight_through wb) = none))) := by
  refine ⟨⟨rfl, rfl, rfl⟩, ?_, ?_⟩
  all_goals
    obtain ⟨sp, outf⟩ := env
    cases sp with
    | absent => simp [scriptMain, processExitCode]
    | corrupt e => simp [scriptMain, processExitCode]
    | loadable wb =>
        by_cases hname : args.scenario = "gs-straight-through"
        · cases outf with
          | absent =>
              cases hm : mergeScenario defaultBaseline args.scenario
                  (extract_gs_straight_through wb) with
              | none =>
                  rw [hname] at hm
                  simp [scriptMain, processExitCode, loadBaseline, hname, hm]
              | some m =>
                  rw [hname] at hm
                  simp [scriptMain, processExitCode, loadBaseline, hname, hm]
          | invalid t =>
              simp [scriptMain, processExitCode, loadBaseline, hname]
          | valid j =>
              cases hm : mergeScenario j args.scenario
                  (extract_gs_straight_through wb) with
              | none =>
                  rw [hname] at hm
                  simp [scriptMain, processExitCode, loadBaseline, hname, hm]
              | some m =>
                  rw [hname] at hm
                  simp [scriptMain, processExitCode, loadBaseline, hname, hm]
        · simp [scriptMain, processExitCode, hname]

/-- C9: the gs-straight-through extractor is a constant function; its record
does not depend on the loaded workbook (sheet names or cell contents) at
all. -/
theorem c9_extractor_ignores_workbook (wb1 wb2 : Workbook) :
    extract_gs_straight_through wb1 = extract_gs_straight_through wb2 := rfl

/-- C10: when the existing output file is valid JSON but carries no
"scenarios" mapping (or is not an object), the run dies with an uncaught
exception at the scenario-insertion step and the output file is not
modified. -/
theorem c10_malformed_baseline_exception (args : Args) (env : Env)
    (wb : Workbook) (j : Json)
    (hload : env.spreadsheet = .loadable wb)
    (hname : args.scenario = "gs-straight-through")
    (hout : env.outputFile = .valid j)
    (hbad : scenariosOf j = none) :
    (∃ e, (scriptMain args env).outcome = .exception e) ∧
    (scriptMain args env).outputFile = env.outputFile := by
  obtain ⟨sp, outf⟩ := env
  dsimp only at hload hout
  subst hload
  subst hout
  have hm : mergeScenario j args.scenario (extract_gs_straight_through wb) = none :=
    mergeScenario_none_of _ _ _ hbad
  obtain ⟨h1, h2⟩ := scriptMain_merge_none args (.valid j) wb j hname rfl hm
  exact ⟨⟨_, h1⟩, h2⟩

/-- C1 witness: concrete run over a document holding a sibling "leo"
scenario. -/
theorem c1_witness :
    ∃ out, (scriptMain defaultArgs envPre).outputFile = .valid out ∧
      getScenario out defaultArgs.scenario
        = some (extract_gs_straight_through cWb) ∧
      ∀ k, k ≠ defaultArgs.scenario → getScenario out k = preScenarios.lookup k :=
  c1_merge_updates_only_named_scenario defaultArgs envPre cWb preScenarios rfl rfl rfl

/-- C2 witness: concrete run with the spreadsheet path missing. -/
theorem c2_witness :
    (scriptMain defaultArgs envAbsent).outcome = .exit 1 ∧
    (scriptMain defaultArgs envAbsent).outputFile = envAbsent.outputFile :=
  c2_missing_spreadsheet_no_write defaultArgs envAbsent rfl

/-- C3 witness: concrete run asking for the unimplemented "leo" scenario. -/
theorem c3_witness :
    (scriptMain argsLeo envLoad).outcome = .exit 1 ∧
    (scriptMain argsLeo envLoad).outputFile = envLoad.outputFile :=
  c3_unknown_scenario_no_write argsLeo envLoad cWb rfl (by decide)

/-- C5 witness: concrete run with no pre-existing output file. -/
theorem c5_witness :
    ∃ out, (scriptMain defaultArgs envLoad).outputFile = .valid out ∧
      out.getField "schemaVersion" = some (.num 1) ∧
      (out.getField "extractionNotes").bind (fun n => n.getField "tolerances")
        = some (.obj (.ofList [
            ("currency_annual", .str "±$1.00"),
            ("currency_monthly", .str "±$0.10"),
            ("percentages", .str "±0.001%"),
            ("dates", .str "exact")])) :=
  c5_default_skeleton defaultArgs envLoad cWb rfl rfl rfl

/-- C6 witness: concrete successful default run. -/
theorem c6_witness :
    ∃ out r, (scriptMain defaultArgs envLoad).outputFile = .valid out ∧
      getScenario out "gs-straight-through" = some r ∧
      r.getField "status" = some (.str "pending") ∧
      (∃ ev, r.getField "expectedValues" = some ev ∧ allLeavesNull ev = true) ∧
      (∃ ns, r.getField "notes" = some (.arr ns) ∧
        ns.hasStr "TODO: Identify which sheet contains the GS scenario data" = true ∧
        ns.hasStr "TODO: Map cell references for each value above" = true ∧
        ns.hasStr "TODO: Extract values and populate expectedValues" = true ∧
        ns.hasStr "Tolerances: currency ±$1.00, percentages ±0.001%" = true) :=
  c6_stub_record_shape envLoad cWb rfl rfl

/-- C7 witness: concrete missing-spreadsheet run. -/
theorem c7_witness :
    (scriptMain defaultArgs envAbsent).outcome = .exit 1 ∧
    (scriptMain defaultArgs envAbsent).stderr = [] ∧
    ∃ msg t, msg ∈ (scriptMain defaultArgs envAbsent).stdout ∧
      noNewline msg = true ∧ msg = "Error" ++ t :=
  c7_diagnostics_on_stdout defaultArgs envAbsent (by decide) (by decide) (Or.inl rfl)

/-- C10 witness: concrete run over an output document without "scenarios". -/
theorem c10_witness :
    (∃ e, (scriptMain defaultArgs badEnv).outcome = .exception e) ∧
    (scriptMain defaultArgs badEnv).outputFile = badEnv.outputFile :=
  c10_malformed_baseline_exception defaultArgs badEnv cWb badOut rfl rfl rfl rfl
